import Mathlib

/-!
Verification of `shortuuidfield/fields.py` (django-shortuuidfield).

The module defines two Django model fields:

* `ShortUUIDField` — a `CharField` that, when `auto` is true, fills an
  empty value at save time with `unicode(shortuuid.uuid())`, a 22-character
  base57 encoding of a random 128-bit UUID.
* `PrefixShortUUIDField` — same pattern, but the generated value is
  `prefix_str` followed by the first 8 characters of
  `shortuuid.encode(uuid.uuid4())`.

The module also guards an optional South introspection registration with
`try: ... except ImportError: pass`.

External collaborators (Django's `CharField`, the `shortuuid` library,
Python's import machinery) are not part of the repository; their behaviour
is modelled from the spec where the definitions below say so.  Randomness
is made explicit: each call that draws a fresh UUID takes the drawn
128-bit value as an argument `r`.
-/

/-- Modelled from the spec: the 57-character base57 alphabet used by the
`shortuuid` library (digits and letters with the visually ambiguous
`0 O 1 I l` removed). -/
def base57Alphabet : List Char :=
  "23456789ABCDEFGHJKLMNPQRSTUVWXYZabcdefghijkmnopqrstuvwxyz".toList

/-- Modelled from the spec: `shortuuid.encode` — positional base57
encoding of an integer (here a 128-bit UUID), padded with the alphabet's
first character to the fixed 22-character length. -/
def shortuuid_encode (n : Nat) : String :=
  let ds := Nat.digits 57 n
  let padded := ds ++ List.replicate (22 - ds.length) 0
  String.mk (padded.reverse.map (fun d => base57Alphabet.getD d ' '))

/-- Modelled from the spec: `shortuuid.uuid()` — base57-encode a freshly
drawn random 128-bit value (`uuid4`); the draw `r` is passed explicitly
and reduced to 128 bits. -/
def shortuuid_uuid (r : Nat) : String :=
  shortuuid_encode (r % 2 ^ 128)

/-- Python string slicing `s[:n]` (by code point). -/
def pySlice (s : String) (n : Nat) : String :=
  String.mk (s.data.take n)

/-- A Django model instance, reduced to the one attribute this field owns
(`self.attname`).  `none` models an attribute holding Python `None`. -/
structure ModelInstance where
  attr : Option String
  deriving Repr, DecidableEq

/-- Python truthiness test `not value` for an optional string: `None` and
the empty string are falsy. -/
def pyFalsy : Option String → Bool
  | none => true
  | some s => s.length == 0

/-- Modelled from the spec: `CharField.pre_save` of the base field reads
the record's current attribute value (`getattr(model_instance,
self.attname)`); the `add` flag is part of the signature but unused. -/
def charField_pre_save (m : ModelInstance) (add : Bool) : Option String :=
  m.attr

/-- The keyword arguments the constructors touch.  Each is `none` when the
caller did not supply it. -/
structure FieldKwargs where
  max_length : Option Nat
  editable : Option Bool
  blank : Option Bool
  deriving Repr, DecidableEq

/-- An opaque stand-in for a Django form field object. -/
structure FormField where
  fromBase : Bool
  deriving Repr, DecidableEq

/-- Modelled from the spec: the base `CharField.formfield` delegation
always constructs a usable form field. -/
def charField_formfield : Option FormField :=
  some { fromBase := true }

/-- `ShortUUIDField`: the `auto` flag stored by `__init__` plus the kwargs
dictionary as passed on to `CharField.__init__`. -/
structure ShortUUIDField where
  auto : Bool
  kwargs : FieldKwargs
  deriving Repr, DecidableEq

/-- `ShortUUIDField.__init__(self, auto=True, *args, **kwargs)`:
forces `kwargs['max_length'] = 22`, and when `auto` also
`kwargs['editable'] = False` and `kwargs['blank'] = True`. -/
def ShortUUIDField.init (auto : Bool) (kwargs : FieldKwargs) : ShortUUIDField :=
  let kwargs1 := { kwargs with max_length := some 22 }
  let kwargs2 :=
    if auto then { kwargs1 with editable := some false, blank := some true }
    else kwargs1
  { auto := auto, kwargs := kwargs2 }

/-- `ShortUUIDField(**kwargs)` with the default `auto=True`. -/
def ShortUUIDField.initDefault (kwargs : FieldKwargs) : ShortUUIDField :=
  ShortUUIDField.init true kwargs

/-- `ShortUUIDField.pre_save(self, model_instance, add)`.  Returns the
pair (returned value, model instance after the call); the fresh random
128-bit draw is the explicit argument `r`. -/
def ShortUUIDField.pre_save (f : ShortUUIDField) (m : ModelInstance)
    (add : Bool) (r : Nat) : Option String × ModelInstance :=
  let value := charField_pre_save m add
  if f.auto && pyFalsy value then
    let v := shortuuid_uuid r
    (some v, { m with attr := some v })
  else
    (value, m)

/-- `ShortUUIDField.formfield(self, **kwargs)`. -/
def ShortUUIDField.formfield (f : ShortUUIDField) : Option FormField :=
  if f.auto then none else charField_formfield

/-- `PrefixShortUUIDField`: stores `auto` and `prefix_str` plus the kwargs
passed on to `CharField.__init__`. -/
structure PrefixShortUUIDField where
  auto : Bool
  prefix_str : String
  kwargs : FieldKwargs
  deriving Repr, DecidableEq

/-- `PrefixShortUUIDField.__init__(self, auto=True, prefix_str='uu-',
*args, **kwargs)`: forces `kwargs['max_length'] = len(prefix_str) + 8`,
and when `auto` also `kwargs['editable'] = False`,
`kwargs['blank'] = True`. -/
def PrefixShortUUIDField.init (auto : Bool) (prefix_str : String)
    (kwargs : FieldKwargs) : PrefixShortUUIDField :=
  let kwargs1 := { kwargs with max_length := some (prefix_str.length + 8) }
  let kwargs2 :=
    if auto then { kwargs1 with editable := some false, blank := some true }
    else kwargs1
  { auto := auto, prefix_str := prefix_str, kwargs := kwargs2 }

/-- `PrefixShortUUIDField(**kwargs)` with the defaults `auto=True`,
`prefix_str='uu-'`. -/
def PrefixShortUUIDField.initDefault (kwargs : FieldKwargs) : PrefixShortUUIDField :=
  PrefixShortUUIDField.init true "uu-" kwargs

/-- `PrefixShortUUIDField.pre_save(self, model_instance, add)`: the
generated value is `"%s%s" % (self.prefix_str,
str(shortuuid.encode(uuid.uuid4()))[:8])`. -/
def PrefixShortUUIDField.pre_save (f : PrefixShortUUIDField) (m : ModelInstance)
    (add : Bool) (r : Nat) : Option String × ModelInstance :=
  let value := charField_pre_save m add
  if f.auto && pyFalsy value then
    let v := f.prefix_str ++ pySlice (shortuuid_encode (r % 2 ^ 128)) 8
    (some v, { m with attr := some v })
  else
    (value, m)

/-- `PrefixShortUUIDField.formfield(self, **kwargs)`. -/
def PrefixShortUUIDField.formfield (f : PrefixShortUUIDField) : Option FormField :=
  if f.auto then none else charField_formfield

/-- A Python exception relevant to module load. -/
inductive PyError
  | importError
  deriving Repr, DecidableEq

/-- Outcome of the optional South registration at module load. -/
inductive SouthRegistration
  | registered
  | skipped
  deriving Repr, DecidableEq

/-- Modelled from the spec: `from south.modelsinspector import
add_introspection_rules` — raises `ImportError` exactly when the optional
South subsystem is unavailable. -/
def import_south (available : Bool) : Except PyError Unit :=
  if available then Except.ok () else Except.error PyError.importError

/-- The module-load tail of `fields.py`: try to import South and register
introspection rules; `except ImportError: pass` swallows the failure. -/
def module_init (available : Bool) : Except PyError SouthRegistration :=
  match import_south available with
  | Except.ok _ => Except.ok SouthRegistration.registered
  | Except.error PyError.importError => Except.ok SouthRegistration.skipped

/-! ## Helper lemmas about the modelled shortuuid encoding -/

theorem base57Alphabet_length : base57Alphabet.length = 57 := by decide

theorem base57Alphabet_getD_mem :
    ∀ d : Nat, d < 57 → base57Alphabet.getD d ' ' ∈ base57Alphabet := by decide

theorem digits57_length_le {n : Nat} (h : n < 57 ^ 22) :
    (Nat.digits 57 n).length ≤ 22 := by
  rcases Nat.eq_zero_or_pos n with h0 | h0
  · simp [h0]
  · rw [Nat.digits_len 57 n (by norm_num) (Nat.pos_iff_ne_zero.mp h0)]
    exact Nat.log_lt_of_lt_pow (Nat.pos_iff_ne_zero.mp h0) h

theorem shortuuid_encode_data_length {n : Nat} (h : n < 57 ^ 22) :
    (shortuuid_encode n).data.length = 22 := by
  have hle := digits57_length_le h
  simp only [shortuuid_encode, String.mk, List.length_map, List.length_reverse,
    List.length_append, List.length_replicate]
  omega

theorem shortuuid_encode_length {n : Nat} (h : n < 57 ^ 22) :
    (shortuuid_encode n).length = 22 :=
  shortuuid_encode_data_length h

theorem shortuuid_encode_data_length_ge (n : Nat) :
    22 ≤ (shortuuid_encode n).data.length := by
  simp only [shortuuid_encode, String.mk, List.length_map, List.length_reverse,
    List.length_append, List.length_replicate]
  omega

theorem shortuuid_encode_mem_alphabet {n : Nat} {c : Char}
    (h : c ∈ (shortuuid_encode n).data) : c ∈ base57Alphabet := by
  simp only [shortuuid_encode, String.mk, List.mem_map, List.mem_reverse,
    List.mem_append, List.mem_replicate] at h
  obtain ⟨d, hd, rfl⟩ := h
  apply base57Alphabet_getD_mem
  rcases hd with hd | hd
  · exact Nat.digits_lt_base (by norm_num) hd
  · omega

theorem uuid4_lt_57_pow (r : Nat) : r % 2 ^ 128 < 57 ^ 22 :=
  lt_of_lt_of_le (Nat.mod_lt r (by positivity)) (by norm_num)

theorem shortuuid_uuid_length (r : Nat) : (shortuuid_uuid r).length = 22 :=
  shortuuid_encode_length (uuid4_lt_57_pow r)

theorem shortuuid_uuid_mem_alphabet {r : Nat} {c : Char}
    (h : c ∈ (shortuuid_uuid r).data) : c ∈ base57Alphabet :=
  shortuuid_encode_mem_alphabet h

theorem pySlice_encode_length (n : Nat) :
    (pySlice (shortuuid_encode n) 8).length = 8 := by
  have hge := shortuuid_encode_data_length_ge n
  show (String.mk ((shortuuid_encode n).data.take 8)).length = 8
  show ((shortuuid_encode n).data.take 8).length = 8
  rw [List.length_take]
  omega

theorem pySlice_encode_mem {n : Nat} {c : Char}
    (h : c ∈ (pySlice (shortuuid_encode n) 8).data) : c ∈ base57Alphabet :=
  shortuuid_encode_mem_alphabet (List.take_subset 8 _ h)

theorem string_append_length (a b : String) :
    (a ++ b).length = a.length + b.length := by
  show (a ++ b).data.length = a.data.length + b.data.length
  rw [String.data_append, List.length_append]

theorem pyFalsy_uuid (r : Nat) : pyFalsy (some (shortuuid_uuid r)) = false := by
  have h := shortuuid_uuid_length r
  simp [pyFalsy, h]

theorem pyFalsy_prefixed (p : String) (n : Nat) :
    pyFalsy (some (p ++ pySlice (shortuuid_encode n) 8)) = false := by
  have h := pySlice_encode_length n
  have hlen := string_append_length p (pySlice (shortuuid_encode n) 8)
  simp only [pyFalsy, hlen, h, beq_eq_false_iff_ne, ne_eq]
  omega

/-! ## Additional lemmas: a second save never changes an already-set value -/

theorem shortuuid_pre_save_second (f : ShortUUIDField) (m : ModelInstance)
    (add add' : Bool) (r r' : Nat) :
    f.pre_save (f.pre_save m add r).2 add' r'
      = (((f.pre_save m add r).2).attr, (f.pre_save m add r).2) := by
  by_cases hc : (f.auto && pyFalsy m.attr) = true
  · simp [ShortUUIDField.pre_save, charField_pre_save, hc, pyFalsy_uuid]
  · simp only [Bool.not_eq_true] at hc
    simp [ShortUUIDField.pre_save, charField_pre_save, hc]

theorem prefixed_pre_save_second (g : PrefixShortUUIDField) (m : ModelInstance)
    (add add' : Bool) (r r' : Nat) :
    g.pre_save (g.pre_save m add r).2 add' r'
      = (((g.pre_save m add r).2).attr, (g.pre_save m add r).2) := by
  by_cases hc : (g.auto && pyFalsy m.attr) = true
  · simp [PrefixShortUUIDField.pre_save, charField_pre_save, hc, pyFalsy_prefixed]
  · simp only [Bool.not_eq_true] at hc
    simp [PrefixShortUUIDField.pre_save, charField_pre_save, hc]

/-! ## Claim theorems -/

/-- C1: for a plain-variant field with `auto = true` and an empty/absent
resolved value, `pre_save` generates a new identifier by base57-encoding
the random 128-bit draw (`shortuuid.uuid()`, 22 characters), assigns it to
the record instance's attribute, and returns that same value: the returned
value equals the attribute value after the call. -/
theorem shortuuid_pre_save_generates (f : ShortUUIDField) (m : ModelInstance)
    (add : Bool) (r : Nat) (hauto : f.auto = true)
    (hempty : pyFalsy m.attr = true) :
    (f.pre_save m add r).1 = some (shortuuid_uuid r) ∧
    ((f.pre_save m add r).2).attr = some (shortuuid_uuid r) ∧
    (f.pre_save m add r).1 = ((f.pre_save m add r).2).attr ∧
    shortuuid_uuid r = shortuuid_encode (r % 2 ^ 128) ∧
    (shortuuid_uuid r).length = 22 := by
  refine ⟨?_, ?_, ?_, rfl, shortuuid_uuid_length r⟩ <;>
    simp [ShortUUIDField.pre_save, charField_pre_save, hauto, hempty]

/-- C1 witness: defaults (`auto=true`), a record with no value set, draw 0. -/
theorem shortuuid_pre_save_generates_witness :
    ((ShortUUIDField.init true ⟨none, none, none⟩).pre_save ⟨none⟩ true 0).1
      = some (shortuuid_uuid 0) ∧
    (((ShortUUIDField.init true ⟨none, none, none⟩).pre_save ⟨none⟩ true 0).2).attr
      = some (shortuuid_uuid 0) :=
  ⟨(shortuuid_pre_save_generates (ShortUUIDField.init true ⟨none, none, none⟩)
      ⟨none⟩ true 0 rfl rfl).1,
   (shortuuid_pre_save_generates (ShortUUIDField.init true ⟨none, none, none⟩)
      ⟨none⟩ true 0 rfl rfl).2.1⟩

/-- C2: a record instance that already has a non-empty value keeps it
through `pre_save` of either variant (value returned unchanged, instance
not mutated), and for any starting instance a second save returns the
post-first-save attribute and leaves the instance unchanged (set-once:
{unset} → {set, immutable afterward}). -/
theorem pre_save_preserves_nonempty (f : ShortUUIDField) (g : PrefixShortUUIDField)
    (m m' : ModelInstance) (add add' : Bool) (r r' : Nat)
    (h : pyFalsy m.attr = false) :
    f.pre_save m add r = (m.attr, m) ∧
    g.pre_save m add r = (m.attr, m) ∧
    f.pre_save (f.pre_save m' add r).2 add' r'
      = (((f.pre_save m' add r).2).attr, (f.pre_save m' add r).2) ∧
    g.pre_save (g.pre_save m' add r).2 add' r'
      = (((g.pre_save m' add r).2).attr, (g.pre_save m' add r).2) := by
  refine ⟨?_, ?_, shortuuid_pre_save_second f m' add add' r r',
    prefixed_pre_save_second g m' add add' r r'⟩
  · simp [ShortUUIDField.pre_save, charField_pre_save, h]
  · simp [PrefixShortUUIDField.pre_save, charField_pre_save, h]

/-- C2 witness: a record already holding `"abc"` is untouched by both
variants' hooks. -/
theorem pre_save_preserves_nonempty_witness :
    (ShortUUIDField.init true ⟨none, none, none⟩).pre_save ⟨some "abc"⟩ true 0
      = (some "abc", ⟨some "abc"⟩) ∧
    (PrefixShortUUIDField.init true "uu-" ⟨none, none, none⟩).pre_save
        ⟨some "abc"⟩ true 0
      = (some "abc", ⟨some "abc"⟩) :=
  ⟨(pre_save_preserves_nonempty (ShortUUIDField.init true ⟨none, none, none⟩)
      (PrefixShortUUIDField.init true "uu-" ⟨none, none, none⟩)
      ⟨some "abc"⟩ ⟨none⟩ true false 0 1 (by decide)).1,
   (pre_save_preserves_nonempty (ShortUUIDField.init true ⟨none, none, none⟩)
      (PrefixShortUUIDField.init true "uu-" ⟨none, none, none⟩)
      ⟨some "abc"⟩ ⟨none⟩ true false 0 1 (by decide)).2.1⟩

/-- C3: a value generated by the prefixed-variant hook is the configured
`prefix_str` followed by the first 8 characters of the base57 encoding of
the random 128-bit draw; the suffix has length exactly 8 and consists of
base57-alphabet characters, and the whole value has length
`len(prefix_str) + 8`. -/
theorem prefixed_pre_save_shape (f : PrefixShortUUIDField) (m : ModelInstance)
    (add : Bool) (r : Nat) (hauto : f.auto = true)
    (hempty : pyFalsy m.attr = true) :
    (f.pre_save m add r).1
      = some (f.prefix_str ++ pySlice (shortuuid_encode (r % 2 ^ 128)) 8) ∧
    (pySlice (shortuuid_encode (r % 2 ^ 128)) 8).length = 8 ∧
    (∀ c ∈ (pySlice (shortuuid_encode (r % 2 ^ 128)) 8).data, c ∈ base57Alphabet) ∧
    (f.prefix_str ++ pySlice (shortuuid_encode (r % 2 ^ 128)) 8).length
      = f.prefix_str.length + 8 := by
  refine ⟨?_, pySlice_encode_length _, fun c hc => pySlice_encode_mem hc, ?_⟩
  · simp [PrefixShortUUIDField.pre_save, charField_pre_save, hauto, hempty]
  · rw [string_append_length, pySlice_encode_length]

/-- C3 witness: default `prefix_str="uu-"`, valueless record, draw 0. -/
theorem prefixed_pre_save_shape_witness :
    ((PrefixShortUUIDField.init true "uu-" ⟨none, none, none⟩).pre_save
        ⟨none⟩ true 0).1
      = some ((PrefixShortUUIDField.init true "uu-" ⟨none, none, none⟩).prefix_str
          ++ pySlice (shortuuid_encode (0 % 2 ^ 128)) 8) ∧
    (pySlice (shortuuid_encode (0 % 2 ^ 128)) 8).length = 8 :=
  ⟨(prefixed_pre_save_shape (PrefixShortUUIDField.init true "uu-" ⟨none, none, none⟩)
      ⟨none⟩ true 0 rfl rfl).1,
   (prefixed_pre_save_shape (PrefixShortUUIDField.init true "uu-" ⟨none, none, none⟩)
      ⟨none⟩ true 0 rfl rfl).2.1⟩

/-- C4: a value generated by the plain-variant hook is a non-empty string
of length exactly 22 all of whose characters belong to the 57-character
base57 alphabet. -/
theorem shortuuid_value_shape (f : ShortUUIDField) (m : ModelInstance)
    (add : Bool) (r : Nat) (hauto : f.auto = true)
    (hempty : pyFalsy m.attr = true) :
    (f.pre_save m add r).1 = some (shortuuid_uuid r) ∧
    (shortuuid_uuid r).length = 22 ∧
    shortuuid_uuid r ≠ "" ∧
    (∀ c ∈ (shortuuid_uuid r).data, c ∈ base57Alphabet) ∧
    base57Alphabet.length = 57 := by
  refine ⟨?_, shortuuid_uuid_length r, ?_,
    fun c hc => shortuuid_uuid_mem_alphabet hc, base57Alphabet_length⟩
  · simp [ShortUUIDField.pre_save, charField_pre_save, hauto, hempty]
  · intro heq
    have hl := shortuuid_uuid_length r
    rw [heq] at hl
    exact absurd hl (by decide)

/-- C4 witness: defaults, valueless record, draw 0. -/
theorem shortuuid_value_shape_witness :
    ((ShortUUIDField.init true ⟨none, none, none⟩).pre_save ⟨none⟩ true 0).1
      = some (shortuuid_uuid 0) ∧
    (shortuuid_uuid 0).length = 22 :=
  ⟨(shortuuid_value_shape (ShortUUIDField.init true ⟨none, none, none⟩)
      ⟨none⟩ true 0 rfl rfl).1,
   (shortuuid_value_shape (ShortUUIDField.init true ⟨none, none, none⟩)
      ⟨none⟩ true 0 rfl rfl).2.1⟩

/-- C5: construction is deterministic: the plain variant forces
`max_length = 22`; the prefixed variant forces
`max_length = len(prefix_str) + 8` with default `prefix_str = "uu-"`
(so 11 by default); both variants with `auto = true` force
`editable = False` and `blank = True`; the default for `auto` is true. -/
theorem init_sets_config (k : FieldKwargs) (p : String) (a : Bool) :
    (ShortUUIDField.init a k).kwargs.max_length = some 22 ∧
    (PrefixShortUUIDField.init a p k).kwargs.max_length = some (p.length + 8) ∧
    (ShortUUIDField.init true k).kwargs.editable = some false ∧
    (ShortUUIDField.init true k).kwargs.blank = some true ∧
    (PrefixShortUUIDField.init true p k).kwargs.editable = some false ∧
    (PrefixShortUUIDField.init true p k).kwargs.blank = some true ∧
    ShortUUIDField.initDefault k = ShortUUIDField.init true k ∧
    PrefixShortUUIDField.initDefault k = PrefixShortUUIDField.init true "uu-" k ∧
    (PrefixShortUUIDField.initDefault k).kwargs.max_length = some 11 := by
  cases a <;> exact ⟨rfl, rfl, rfl, rfl, rfl, rfl, rfl, rfl, rfl⟩

/-- C6: a field of either variant constructed with `auto = false` never
generates a value: `pre_save` returns the base field's resolved value
unchanged — even when it is empty or absent — and the record instance is
not mutated. -/
theorem pre_save_no_auto (k : FieldKwargs) (p : String) (m : ModelInstance)
    (add : Bool) (r : Nat) :
    (ShortUUIDField.init false k).pre_save m add r = (m.attr, m) ∧
    (PrefixShortUUIDField.init false p k).pre_save m add r = (m.attr, m) ∧
    (ShortUUIDField.init false k).auto = false ∧
    (PrefixShortUUIDField.init false p k).auto = false := by
  refine ⟨?_, ?_, rfl, rfl⟩
  · simp [ShortUUIDField.pre_save, ShortUUIDField.init, charField_pre_save]
  · simp [PrefixShortUUIDField.pre_save, PrefixShortUUIDField.init, charField_pre_save]

/-- C7: for either variant, `formfield` returns `None` whenever `auto` is
true, and delegates to the base `CharField` form-field construction —
which yields a usable form field — whenever `auto` is false. -/
theorem formfield_auto (f : ShortUUIDField) (g : PrefixShortUUIDField) :
    (f.auto = true → f.formfield = none) ∧
    (f.auto = false → f.formfield = charField_formfield) ∧
    (g.auto = true → g.formfield = none) ∧
    (g.auto = false → g.formfield = charField_formfield) ∧
    charField_formfield.isSome = true := by
  refine ⟨?_, ?_, ?_, ?_, rfl⟩ <;> intro h <;>
    simp [ShortUUIDField.formfield, PrefixShortUUIDField.formfield, h]

/-- C7 witness: both variants at `auto = true` and `auto = false`. -/
theorem formfield_auto_witness :
    (ShortUUIDField.init true ⟨none, none, none⟩).formfield = none ∧
    (ShortUUIDField.init false ⟨none, none, none⟩).formfield = charField_formfield ∧
    (PrefixShortUUIDField.init true "uu-" ⟨none, none, none⟩).formfield = none ∧
    (PrefixShortUUIDField.init false "uu-" ⟨none, none, none⟩).formfield
      = charField_formfield :=
  ⟨(formfield_auto (ShortUUIDField.init true ⟨none, none, none⟩)
      (PrefixShortUUIDField.init true "uu-" ⟨none, none, none⟩)).1 rfl,
   (formfield_auto (ShortUUIDField.init false ⟨none, none, none⟩)
      (PrefixShortUUIDField.init true "uu-" ⟨none, none, none⟩)).2.1 rfl,
   (formfield_auto (ShortUUIDField.init true ⟨none, none, none⟩)
      (PrefixShortUUIDField.init true "uu-" ⟨none, none, none⟩)).2.2.1 rfl,
   (formfield_auto (ShortUUIDField.init true ⟨none, none, none⟩)
      (PrefixShortUUIDField.init false "uu-" ⟨none, none, none⟩)).2.2.2.1 rfl⟩

/-- C8: `pre_save` of either variant is independent of the insert-vs-update
flag `add`: with the same record instance and the same random draw, the
`add = true` and `add = false` runs return the same value and the same
final instance. -/
theorem pre_save_ignores_add (f : ShortUUIDField) (g : PrefixShortUUIDField)
    (m : ModelInstance) (r : Nat) (add add' : Bool) :
    f.pre_save m add r = f.pre_save m add' r ∧
    g.pre_save m add r = g.pre_save m add' r :=
  ⟨rfl, rfl⟩

/-- C9: module load never propagates the optional South subsystem's
`ImportError`: when South is unavailable the registration is skipped
silently, and when it is available the rules are registered. -/
theorem module_init_swallows_import_error (available : Bool) :
    (module_init available).isOk = true ∧
    module_init false = Except.ok SouthRegistration.skipped ∧
    module_init true = Except.ok SouthRegistration.registered := by
  refine ⟨?_, rfl, rfl⟩
  cases available <;> rfl

/-- C10: whatever `max_length`, `editable` and `blank` the caller supplies,
both constructors overwrite `max_length` (to 22, resp. `len(prefix_str)+8`),
and with `auto = true` they also overwrite `editable` (to false) and
`blank` (to true); with `auto = false` the caller's `editable` and `blank`
pass through, so only `auto = false` leaves them configurable. -/
theorem init_overrides_kwargs (ml : Option Nat) (ed bl : Option Bool)
    (p : String) (a : Bool) :
    (ShortUUIDField.init a ⟨ml, ed, bl⟩).kwargs.max_length = some 22 ∧
    (PrefixShortUUIDField.init a p ⟨ml, ed, bl⟩).kwargs.max_length
      = some (p.length + 8) ∧
    (ShortUUIDField.init true ⟨ml, ed, bl⟩).kwargs.editable = some false ∧
    (ShortUUIDField.init true ⟨ml, ed, bl⟩).kwargs.blank = some true ∧
    (PrefixShortUUIDField.init true p ⟨ml, ed, bl⟩).kwargs.editable = some false ∧
    (PrefixShortUUIDField.init true p ⟨ml, ed, bl⟩).kwargs.blank = some true ∧
    (ShortUUIDField.init false ⟨ml, ed, bl⟩).kwargs.editable = ed ∧
    (ShortUUIDField.init false ⟨ml, ed, bl⟩).kwargs.blank = bl ∧
    (PrefixShortUUIDField.init false p ⟨ml, ed, bl⟩).kwargs.editable = ed ∧
    (PrefixShortUUIDField.init false p ⟨ml, ed, bl⟩).kwargs.blank = bl := by
  cases a <;> exact ⟨rfl, rfl, rfl, rfl, rfl, rfl, rfl, rfl, rfl, rfl⟩
